import Mathlib

/-!
Verification of the Jira-integration backend (credential lifecycle and sync
orchestration) against its natural-language specification.

The JavaScript sources are shallowly embedded: each relevant function is
translated to a pure Lean function over explicit state.  External I/O (the
OAuth token endpoint, the Jira REST API) is modelled by response values passed
in as parameters; the SQLite store is modelled by lists of rows.  Timestamps
are integers (milliseconds since the epoch); JSON values that the source only
ever passes through `JSON.stringify` are modelled by their serialized text.
-/

namespace SpotBackend

/-- A row of the `integrations` table, as created by `initDatabase` in
`database.js` (columns not read by any embedded function are omitted).
`refreshToken`/`expiresAt`/`lastRefreshAt` are `Option` because the columns
are nullable and the source checks them for truthiness. -/
structure Integration where
  id : Nat
  accessToken : String
  refreshToken : Option String
  expiresAt : Option Int
  lastRefreshAt : Option Int
  refreshFailures : Nat
  isActive : Bool
  isPrimary : Bool
deriving Repr, DecidableEq

/-- The five-minute buffer used by `JiraAuthService.needsRefresh`
(`const bufferTime = 5 * 60 * 1000`). -/
def bufferTime : Int := 5 * 60 * 1000

/-- `JiraAuthService.needsRefresh(integration)` from `auth-service.js`:
returns true when `expires_at` is absent, otherwise compares
`expiresAt <= now + bufferTime`.  The `now` parameter models `new Date()`. -/
def needsRefresh (integration : Integration) (now : Int) : Bool :=
  match integration.expiresAt with
  | none => true
  | some expiresAt => expiresAt ≤ now + bufferTime

/-- `db.get('SELECT * FROM integrations WHERE id = ? AND is_active = 1')`:
the first row matching the id that is still active. -/
def findActive (db : List Integration) (integrationId : Nat) : Option Integration :=
  db.find? (fun i => i.id == integrationId && i.isActive)

/-- `db.run('UPDATE integrations SET ... WHERE id = ?')`: applies the column
updates `f` to every row whose id matches. -/
def updateWhereId (db : List Integration) (integrationId : Nat)
    (f : Integration → Integration) : List Integration :=
  db.map (fun i => if i.id == integrationId then f i else i)

/-- The response of the external token endpoint
(`fetch('https://auth.atlassian.com/oauth/token', ...)`), as far as
`refreshAccessToken` reads it: `ok`/`status`, and on success the JSON body's
`access_token`, optional `refresh_token` and `expires_in`. -/
structure TokenResponse where
  ok : Bool
  status : Nat
  accessToken : String
  refreshToken : Option String
  expiresIn : Int
deriving Repr, DecidableEq

/-- The distinct error classes thrown by `JiraAuthService.refreshAccessToken`:
`'Integration not found'`, `'No refresh token available - re-authentication
required'`, and `'Token refresh failed: <status> <body>'`. -/
inductive RefreshError where
  | integrationNotFound
  | noRefreshCapability
  | refreshFailed (status : Nat)
deriving Repr, DecidableEq

/-- The value returned by a successful `refreshAccessToken` call:
`{accessToken, refreshToken, expiresAt}`. -/
structure TokenTriple where
  accessToken : String
  refreshToken : String
  expiresAt : Int
deriving Repr, DecidableEq

/-- The full observable outcome of one `refreshAccessToken` call: the store
after the call, the returned value or thrown error, and whether the external
token endpoint was contacted. -/
structure RefreshOutcome where
  db : List Integration
  result : Except RefreshError TokenTriple
  endpointCalled : Bool

/-- `JiraAuthService.refreshAccessToken(integrationId)` from `auth-service.js`.
The parameter `resp` is the response the token endpoint would give if called.
Control flow mirrors the source: look the row up (`id = ? AND is_active = 1`),
throw if absent; throw before any network call if `refresh_token` is falsy;
otherwise call the endpoint.  On a non-ok response increment
`refresh_failures` and throw; on an ok response store the new token material
(keeping the old refresh token when the response omits one), reset
`refresh_failures` to 0 and set `last_refresh_at`. -/
def refreshAccessToken (db : List Integration) (integrationId : Nat)
    (resp : TokenResponse) (now : Int) : RefreshOutcome :=
  match findActive db integrationId with
  | none =>
      { db := db, result := .error .integrationNotFound, endpointCalled := false }
  | some integration =>
    match integration.refreshToken with
    | none =>
        { db := db, result := .error .noRefreshCapability, endpointCalled := false }
    | some oldRefreshToken =>
      if resp.ok then
        let newRefreshToken := resp.refreshToken.getD oldRefreshToken
        let newExpiresAt := now + resp.expiresIn * 1000
        { db := updateWhereId db integrationId (fun i =>
            { i with
              accessToken := resp.accessToken
              refreshToken := some newRefreshToken
              expiresAt := some newExpiresAt
              lastRefreshAt := some now
              refreshFailures := 0 })
          result := .ok
            { accessToken := resp.accessToken
              refreshToken := newRefreshToken
              expiresAt := newExpiresAt }
          endpointCalled := true }
      else
        { db := updateWhereId db integrationId (fun i =>
            { i with refreshFailures := i.refreshFailures + 1 })
          result := .error (.refreshFailed resp.status)
          endpointCalled := true }

/-- The token material passed to `JiraAuthService.storeTokens` (the shape
returned by `exchangeCodeForTokens`). -/
structure StoredTokens where
  accessToken : String
  refreshToken : Option String
  expiresAt : Option Int
deriving Repr, DecidableEq

/-- `SELECT COUNT(*) FROM integrations WHERE is_active = 1`. -/
def countActive (db : List Integration) : Nat :=
  (db.filter (fun i => i.isActive)).length

/-- `JiraAuthService.storeTokens(projectId, tokens, accountInfo)` from
`auth-service.js`: counts the active integrations, then inserts a new row
with `is_active = 1` and `is_primary = 1` exactly when no active integration
existed (`isFirstIntegration`).  `refresh_failures` takes its schema default
0; `last_refresh_at` is set to now.  `newId` models the autoincrement id. -/
def storeTokens (db : List Integration) (newId : Nat) (tokens : StoredTokens)
    (now : Int) : List Integration :=
  let isFirstIntegration := countActive db == 0
  db ++ [{ id := newId
           accessToken := tokens.accessToken
           refreshToken := tokens.refreshToken
           expiresAt := tokens.expiresAt
           lastRefreshAt := some now
           refreshFailures := 0
           isActive := true
           isPrimary := isFirstIntegration }]

/-- The `POST /api/accounts/:id/set-primary` handler in `web-server.js`:
`UPDATE integrations SET is_primary = 0` followed by
`UPDATE integrations SET is_primary = 1 WHERE id = ?`. -/
def setPrimaryAccount (db : List Integration) (accountId : Nat) : List Integration :=
  (db.map (fun i => { i with isPrimary := false })).map
    (fun i => if i.id == accountId then { i with isPrimary := true } else i)

/-- `UPDATE integrations SET is_active = 0 WHERE id = ?`, used both by the
`DELETE /api/accounts/:id` handler and by the scheduler's deactivation step. -/
def deactivateAccount (db : List Integration) (accountId : Nat) : List Integration :=
  db.map (fun i => if i.id == accountId then { i with isActive := false } else i)

/-- Number of rows that are both active and primary. -/
def primaryActiveCount (db : List Integration) : Nat :=
  (db.filter (fun i => i.isActive && i.isPrimary)).length

/-- The spec's account invariant: at most one primary among active accounts. -/
def atMostOnePrimary (db : List Integration) : Prop :=
  primaryActiveCount db ≤ 1

/-- The scheduler's state: the `isRunning` re-entrancy flag of
`TokenRefreshScheduler` together with the shared store. -/
structure SchedulerState where
  isRunning : Bool
  db : List Integration
deriving Repr, DecidableEq

/-- The environment of one refresh cycle: whether the store itself is
reachable (`getDatabase`/`db.all` succeed — a failure there lands in the
outer catch), and the token-endpoint response per integration id. -/
structure RefreshEnv where
  dbAvailable : Bool
  resp : Nat → TokenResponse

/-- The body of the per-integration loop of
`TokenRefreshScheduler.refreshAllTokens`: `snapshot` is the row as read by
the initial `SELECT`.  If `needsRefresh(snapshot)`, attempt
`refreshAccessToken`; on a thrown error the catch block deactivates the
integration when the *snapshot's* `refresh_failures` is already ≥ 3. -/
def refreshOneIntegration (db : List Integration) (snapshot : Integration)
    (env : RefreshEnv) (now : Int) : List Integration :=
  if needsRefresh snapshot now then
    let outcome := refreshAccessToken db snapshot.id (env.resp snapshot.id) now
    match outcome.result with
    | .ok _ => outcome.db
    | .error _ =>
        if snapshot.refreshFailures ≥ 3 then
          deactivateAccount outcome.db snapshot.id
        else
          outcome.db
  else
    db

/-- `TokenRefreshScheduler.refreshAllTokens` from `scheduler.js`: skip
entirely when `isRunning` is already set; otherwise set the flag, select the
active integrations, process each against the current store, and clear the
flag in `finally` — also when reading the store failed and control went
through the outer catch. -/
def refreshAllTokens (s : SchedulerState) (env : RefreshEnv) (now : Int) :
    SchedulerState :=
  if s.isRunning then
    s
  else if env.dbAvailable then
    let snapshots := s.db.filter (fun i => i.isActive)
    { isRunning := false
      db := snapshots.foldl (fun db snapshot => refreshOneIntegration db snapshot env now) s.db }
  else
    { s with isRunning := false }

end SpotBackend

namespace SpotBackend

/-- **C5.** `needsRefresh` returns true exactly when `expires_at` is absent or
`expires_at ≤ now + 300` seconds; in particular it returns false when
`expires_at = now + 301` seconds.  It is a pure predicate by construction: the
embedding returns only a `Bool` and takes the record by value, mirroring the
source, which reads `integration.expires_at` and performs no store access. -/
theorem needsRefresh_spec (integration : Integration) (now : Int) :
    (needsRefresh integration now = true ↔
      (integration.expiresAt = none ∨
        ∃ e, integration.expiresAt = some e ∧ e ≤ now + 300 * 1000)) ∧
    needsRefresh { integration with expiresAt := some (now + 301 * 1000) } now = false := by
  constructor
  · cases h : integration.expiresAt with
    | none => simp [needsRefresh, h]
    | some e =>
        simp only [needsRefresh, h, decide_eq_true_eq]
        constructor
        · intro he
          exact Or.inr ⟨e, rfl, he⟩
        · rintro (hc | ⟨e', he', hle⟩)
          · exact absurd hc (by simp)
          · cases he'
            simpa [bufferTime] using hle
  · simp only [needsRefresh, decide_eq_false_iff_not, not_le, bufferTime]
    omega

/-- Shared helper: an `UPDATE ... WHERE id = ?` whose column updates touch
neither `id` nor `is_active` commutes with the
`SELECT ... WHERE id = ? AND is_active = 1` lookup. -/
theorem findActive_updateWhereId (db : List Integration) (integrationId : Nat)
    (f : Integration → Integration)
    (hid : ∀ i, (f i).id = i.id) (hact : ∀ i, (f i).isActive = i.isActive) :
    findActive (updateWhereId db integrationId f) integrationId =
      (findActive db integrationId).map f := by
  induction db with
  | nil => rfl
  | cons a tl ih =>
      by_cases hmatch : (a.id == integrationId) = true
      · by_cases hact' : a.isActive = true
        · have hp : (a.id == integrationId && a.isActive) = true := by
            simp [hmatch, hact']
          have hpf : ((f a).id == integrationId && (f a).isActive) = true := by
            simp [hid a, hact a, hmatch, hact']
          simp only [findActive, updateWhereId, List.map_cons, if_pos hmatch] at *
          rw [List.find?_cons, List.find?_cons, hp, hpf]
          rfl
        · have hp : (a.id == integrationId && a.isActive) = false := by
            simp [hact']
          have hpf : ((f a).id == integrationId && (f a).isActive) = false := by
            simp [hact a, hact']
          simp only [findActive, updateWhereId, List.map_cons, if_pos hmatch] at *
          rw [List.find?_cons, List.find?_cons, hp, hpf]
          exact ih
      · have hp : (a.id == integrationId && a.isActive) = false := by
          simp only [Bool.and_eq_false_iff]
          exact Or.inl (by simpa using hmatch)
        simp only [findActive, updateWhereId, List.map_cons, if_neg hmatch] at *
        rw [List.find?_cons, List.find?_cons, hp]
        exact ih

/-- **C4.** For an account found by the active lookup: with no refresh token,
`refreshAccessToken` fails with `NoRefreshCapability` and never contacts the
endpoint (store untouched); with a refresh token it contacts the endpoint,
and on a successful response persists the new token material with
`refresh_failures` reset to 0 and `last_refresh_at` updated, while on a
failed response it persists `refresh_failures + 1` and fails with
`RefreshFailed`. -/
theorem refreshAccessToken_spec (db : List Integration) (integrationId : Nat)
    (resp : TokenResponse) (now : Int) (integration : Integration)
    (hfind : findActive db integrationId = some integration) :
    (integration.refreshToken = none →
      refreshAccessToken db integrationId resp now =
        { db := db, result := .error .noRefreshCapability, endpointCalled := false }) ∧
    (∀ oldRefreshToken, integration.refreshToken = some oldRefreshToken →
      (refreshAccessToken db integrationId resp now).endpointCalled = true ∧
      (resp.ok = true →
        (refreshAccessToken db integrationId resp now).result = .ok
          { accessToken := resp.accessToken
            refreshToken := resp.refreshToken.getD oldRefreshToken
            expiresAt := now + resp.expiresIn * 1000 } ∧
        findActive (refreshAccessToken db integrationId resp now).db integrationId =
          some { integration with
                 accessToken := resp.accessToken
                 refreshToken := some (resp.refreshToken.getD oldRefreshToken)
                 expiresAt := some (now + resp.expiresIn * 1000)
                 lastRefreshAt := some now
                 refreshFailures := 0 }) ∧
      (resp.ok = false →
        (refreshAccessToken db integrationId resp now).result =
          .error (.refreshFailed resp.status) ∧
        findActive (refreshAccessToken db integrationId resp now).db integrationId =
          some { integration with refreshFailures := integration.refreshFailures + 1 })) := by
  refine ⟨fun hnone => ?_, fun oldRefreshToken hsome => ?_⟩
  · simp [refreshAccessToken, hfind, hnone]
  · refine ⟨?_, fun hok => ?_, fun hfail => ?_⟩
    · cases hok : resp.ok <;> simp [refreshAccessToken, hfind, hsome, hok]
    · constructor
      · simp [refreshAccessToken, hfind, hsome, hok]
      · have hcomm := findActive_updateWhereId db integrationId
          (fun i => { i with
            accessToken := resp.accessToken
            refreshToken := some (resp.refreshToken.getD oldRefreshToken)
            expiresAt := some (now + resp.expiresIn * 1000)
            lastRefreshAt := some now
            refreshFailures := 0 }) (fun i => rfl) (fun i => rfl)
        rw [hfind] at hcomm
        simp only [refreshAccessToken, hfind, hsome, hok, if_pos]
        rw [hcomm]
        rfl
    · constructor
      · simp [refreshAccessToken, hfind, hsome, hfail]
      · have hcomm := findActive_updateWhereId db integrationId
          (fun i => { i with refreshFailures := i.refreshFailures + 1 })
          (fun i => rfl) (fun i => rfl)
        rw [hfind] at hcomm
        simp only [refreshAccessToken, hfind, hsome, hfail, Bool.false_eq_true, if_neg,
          not_false_eq_true]
        rw [hcomm]
        simp [hsome]

/-- A store with one active account holding a refresh token, used as the
concrete input of several witnesses. -/
def sampleDb : List Integration :=
  [{ id := 1, accessToken := "old-access", refreshToken := some "old-refresh",
     expiresAt := some 1000, lastRefreshAt := some 0, refreshFailures := 0,
     isActive := true, isPrimary := true }]

/-- A successful token-endpoint response that omits the refresh token. -/
def okRespNoRefresh : TokenResponse :=
  { ok := true, status := 200, accessToken := "new-access", refreshToken := none,
    expiresIn := 3600 }

/-- A failing token-endpoint response. -/
def failResp : TokenResponse :=
  { ok := false, status := 403, accessToken := "", refreshToken := none, expiresIn := 0 }

/-- Witness for C4 at a concrete store and response. -/
theorem refreshAccessToken_spec_witness :
    (refreshAccessToken sampleDb 1 okRespNoRefresh 5000).endpointCalled = true ∧
    (refreshAccessToken sampleDb 1 okRespNoRefresh 5000).result = .ok
      { accessToken := "new-access", refreshToken := "old-refresh",
        expiresAt := 5000 + 3600 * 1000 } := by
  have h := refreshAccessToken_spec sampleDb 1 okRespNoRefresh 5000
    (sampleDb.get ⟨0, by simp [sampleDb]⟩) (by decide)
  have h2 := h.2 "old-refresh" (by decide)
  exact ⟨h2.1, ((h2.2.1 (by decide)).1)⟩

/-- **C9.** When the token endpoint's successful response omits a refresh
token, the stored `refresh_token` keeps its previous value and the returned
`refreshToken` equals that retained value. -/
theorem refresh_success_retains_refresh_token (db : List Integration)
    (integrationId : Nat) (resp : TokenResponse) (now : Int)
    (integration : Integration) (oldRefreshToken : String)
    (hfind : findActive db integrationId = some integration)
    (hsome : integration.refreshToken = some oldRefreshToken)
    (hok : resp.ok = true) (homit : resp.refreshToken = none) :
    ((refreshAccessToken db integrationId resp now).result.map (·.refreshToken) =
      .ok oldRefreshToken) ∧
    (findActive (refreshAccessToken db integrationId resp now).db integrationId).map
        (·.refreshToken) = some (some oldRefreshToken) := by
  constructor
  · simp [refreshAccessToken, hfind, hsome, hok, homit, Except.map]
  · have hcomm := findActive_updateWhereId db integrationId
      (fun i => { i with
        accessToken := resp.accessToken
        refreshToken := some (resp.refreshToken.getD oldRefreshToken)
        expiresAt := some (now + resp.expiresIn * 1000)
        lastRefreshAt := some now
        refreshFailures := 0 }) (fun i => rfl) (fun i => rfl)
    rw [hfind] at hcomm
    simp only [refreshAccessToken, hfind, hsome, hok, if_pos]
    rw [hcomm]
    simp [homit]

/-- Witness for C9 at a concrete store and response. -/
theorem refresh_success_retains_refresh_token_witness :
    ((refreshAccessToken sampleDb 1 okRespNoRefresh 5000).result.map (·.refreshToken) =
      .ok "old-refresh") ∧
    (findActive (refreshAccessToken sampleDb 1 okRespNoRefresh 5000).db 1).map
        (·.refreshToken) = some (some "old-refresh") :=
  refresh_success_retains_refresh_token sampleDb 1 okRespNoRefresh 5000
    (sampleDb.get ⟨0, by simp [sampleDb]⟩) "old-refresh"
    (by decide) (by decide) (by decide) (by decide)

/-- Projection of every `integrations` column except `refresh_failures`. -/
def frameColumns (i : Integration) :
    Nat × String × Option String × Option Int × Option Int × Bool × Bool :=
  (i.id, i.accessToken, i.refreshToken, i.expiresAt, i.lastRefreshAt, i.isActive, i.isPrimary)

/-- **C10.** On a failing token-endpoint response the only persisted change is
`refresh_failures` incremented by one on the matching row: `access_token`,
`refresh_token`, `expires_at`, `last_refresh_at`, `is_active` and
`is_primary` are unchanged on every row. -/
theorem refresh_failure_frame (db : List Integration) (integrationId : Nat)
    (resp : TokenResponse) (now : Int) (integration : Integration)
    (oldRefreshToken : String)
    (hfind : findActive db integrationId = some integration)
    (hsome : integration.refreshToken = some oldRefreshToken)
    (hfail : resp.ok = false) :
    (refreshAccessToken db integrationId resp now).db.map frameColumns =
      db.map frameColumns ∧
    (refreshAccessToken db integrationId resp now).db.map (·.refreshFailures) =
      db.map (fun i =>
        if i.id == integrationId then i.refreshFailures + 1 else i.refreshFailures) := by
  have hdb : (refreshAccessToken db integrationId resp now).db =
      updateWhereId db integrationId (fun i => { i with refreshFailures := i.refreshFailures + 1 }) := by
    simp [refreshAccessToken, hfind, hsome, hfail]
  rw [hdb]
  constructor
  · unfold updateWhereId
    rw [List.map_map]
    refine List.map_congr_left (fun i _ => ?_)
    by_cases h : i.id = integrationId <;> simp [h, frameColumns]
  · unfold updateWhereId
    rw [List.map_map]
    refine List.map_congr_left (fun i _ => ?_)
    by_cases h : i.id = integrationId <;> simp [h]

/-- Witness for C10 at a concrete store and response. -/
theorem refresh_failure_frame_witness :
    (refreshAccessToken sampleDb 1 failResp 5000).db.map frameColumns =
      sampleDb.map frameColumns ∧
    (refreshAccessToken sampleDb 1 failResp 5000).db.map (·.refreshFailures) =
      sampleDb.map (fun i =>
        if i.id == 1 then i.refreshFailures + 1 else i.refreshFailures) :=
  refresh_failure_frame sampleDb 1 failResp 5000
    (sampleDb.get ⟨0, by simp [sampleDb]⟩) "old-refresh"
    (by decide) (by decide) (by decide)

/-- There cannot be more active-and-primary rows than active rows. -/
theorem primaryActiveCount_le_countActive (db : List Integration) :
    primaryActiveCount db ≤ countActive db := by
  unfold primaryActiveCount countActive
  rw [← List.countP_eq_length_filter, ← List.countP_eq_length_filter]
  exact List.countP_mono_left (fun i _ h => by
    simpa using (Bool.and_elim_left (by simpa using h)))

/-- In a store whose ids are distinct (the `id` column is the primary key),
at most one row matches a given id. -/
theorem countP_id_le_one (db : List Integration) (accountId : Nat)
    (hnodup : (db.map (·.id)).Nodup) :
    db.countP (fun i => i.id == accountId) ≤ 1 := by
  induction db with
  | nil => simp
  | cons a tl ih =>
      rw [List.map_cons, List.nodup_cons] at hnodup
      by_cases h : (a.id == accountId) = true
      · have hzero : tl.countP (fun i => i.id == accountId) = 0 := by
          rw [List.countP_eq_zero]
          intro b hb hbeq
          have hids : b.id ∈ tl.map (·.id) := List.mem_map_of_mem _ hb
          have : a.id = b.id := by
            have h1 : a.id = accountId := by simpa using h
            have h2 : b.id = accountId := by simpa using hbeq
            omega
          exact hnodup.1 (this ▸ hids)
        rw [List.countP_cons, hzero]
        simp [h]
      · rw [List.countP_cons]
        simp only [h, if_false]
        simpa using ih hnodup.2

/-- **C7.** At most one account is primary among active accounts: the
invariant is preserved by `storeTokens` and by the set-primary route (the
only writers of the primary flag) as well as by account deactivation, and
`storeTokens` marks the inserted account primary exactly when no active
account existed before the insert. -/
theorem primary_invariant_spec (db : List Integration) (newId accountId : Nat)
    (tokens : StoredTokens) (now : Int)
    (hinv : atMostOnePrimary db) (hnodup : (db.map (·.id)).Nodup) :
    atMostOnePrimary (storeTokens db newId tokens now) ∧
    atMostOnePrimary (setPrimaryAccount db accountId) ∧
    atMostOnePrimary (deactivateAccount db accountId) ∧
    (storeTokens db newId tokens now).getLast?.map (·.isPrimary) =
      some (countActive db == 0) := by
  refine ⟨?_, ?_, ?_, ?_⟩
  · unfold atMostOnePrimary primaryActiveCount storeTokens
    rw [List.filter_append, List.length_append]
    by_cases hfirst : (countActive db == 0) = true
    · have hzero : primaryActiveCount db = 0 := by
        have hc : countActive db = 0 := by simpa using hfirst
        have := primaryActiveCount_le_countActive db
        omega
      unfold primaryActiveCount at hzero
      rw [hzero]
      simp [hfirst]
    · simp only [hfirst]
      have : (List.filter (fun i => i.isActive && i.isPrimary)
          ([{ id := newId, accessToken := tokens.accessToken,
              refreshToken := tokens.refreshToken, expiresAt := tokens.expiresAt,
              lastRefreshAt := some now, refreshFailures := 0, isActive := true,
              isPrimary := false }] : List Integration)).length = 0 := by simp
      rw [this]
      simpa [atMostOnePrimary, primaryActiveCount] using hinv
  · unfold atMostOnePrimary primaryActiveCount setPrimaryAccount
    rw [← List.countP_eq_length_filter, List.countP_map, List.countP_map]
    have hmid : db.countP (fun i => i.id == accountId && i.isActive) ≤ 1 := by
      refine le_trans (List.countP_mono_left (fun i _ h => ?_))
        (countP_id_le_one db accountId hnodup)
      simp only [Bool.and_eq_true] at h
      exact h.1
    refine le_trans (le_of_eq (List.countP_congr (fun i _ => ?_))) hmid
    by_cases h : (i.id == accountId) = true <;> simp [Function.comp, h, Bool.and_comm]
  · unfold atMostOnePrimary primaryActiveCount deactivateAccount
    rw [← List.countP_eq_length_filter, List.countP_map]
    have hle : db.countP ((fun j => j.isActive && j.isPrimary) ∘
        (fun j => if j.id == accountId then { j with isActive := false } else j)) ≤
        db.countP (fun j => j.isActive && j.isPrimary) := by
      refine List.countP_mono_left (fun i _ h => ?_)
      by_cases hid : (i.id == accountId) = true <;> simp [Function.comp, hid] at h ⊢
      tauto
    have hrhs : db.countP (fun j => j.isActive && j.isPrimary) ≤ 1 := by
      have := hinv
      unfold atMostOnePrimary primaryActiveCount at this
      rwa [← List.countP_eq_length_filter] at this
    omega
  · unfold storeTokens
    rw [List.getLast?_concat]
    rfl

/-- Witness for C7: a store with one active primary account, distinct ids. -/
theorem primary_invariant_spec_witness :
    atMostOnePrimary (storeTokens sampleDb 2
      { accessToken := "a2", refreshToken := none, expiresAt := none } 0) ∧
    atMostOnePrimary (setPrimaryAccount sampleDb 1) ∧
    atMostOnePrimary (deactivateAccount sampleDb 1) ∧
    (storeTokens sampleDb 2
        { accessToken := "a2", refreshToken := none, expiresAt := none } 0).getLast?.map
      (·.isPrimary) = some (countActive sampleDb == 0) :=
  primary_invariant_spec sampleDb 2 1
    { accessToken := "a2", refreshToken := none, expiresAt := none } 0
    (by unfold atMostOnePrimary; decide) (by decide)

/-- **C8.** The refresh cycle's single boolean re-entrancy guard: an
invocation that starts while `isRunning` is set returns with no effect at all
(nothing refreshed, nothing queued), and an invocation that does run leaves
the flag cleared for every environment — also when reading the store fails
(outer catch) or individual refreshes fail, since the source clears the flag
in `finally`. -/
theorem refreshAllTokens_reentrancy (s : SchedulerState) (env : RefreshEnv) (now : Int) :
    (s.isRunning = true → refreshAllTokens s env now = s) ∧
    (s.isRunning = false → (refreshAllTokens s env now).isRunning = false) := by
  constructor
  · intro h
    simp [refreshAllTokens, h]
  · intro h
    by_cases hdb : env.dbAvailable = true <;> simp [refreshAllTokens, h, hdb]

/-- An environment whose token endpoint always fails. -/
def alwaysFailEnv : RefreshEnv :=
  { dbAvailable := true, resp := fun _ => failResp }

/-- Witness for C8: a busy invocation is skipped; an idle one clears the flag. -/
theorem refreshAllTokens_reentrancy_witness :
    refreshAllTokens { isRunning := true, db := sampleDb } alwaysFailEnv 0 =
      { isRunning := true, db := sampleDb } ∧
    (refreshAllTokens { isRunning := false, db := sampleDb } alwaysFailEnv 0).isRunning =
      false :=
  ⟨(refreshAllTokens_reentrancy { isRunning := true, db := sampleDb } alwaysFailEnv 0).1 rfl,
   (refreshAllTokens_reentrancy { isRunning := false, db := sampleDb } alwaysFailEnv 0).2 rfl⟩

/-- One refresh cycle over a single active account whose token-endpoint call
fails: the stored failure counter is incremented, and the account is
deactivated only when the counter read at the start of the cycle was already
≥ 3. -/
theorem refreshAllTokens_singleton_failure (a : Integration) (env : RefreshEnv)
    (now : Int) (hact : a.isActive = true) (rt : String)
    (hrt : a.refreshToken = some rt) (hneeds : needsRefresh a now = true)
    (henv : (env.resp a.id).ok = false) (hdb : env.dbAvailable = true) :
    refreshAllTokens { isRunning := false, db := [a] } env now =
      { isRunning := false
        db := [if a.refreshFailures ≥ 3 then
                 { a with refreshFailures := a.refreshFailures + 1, isActive := false }
               else
                 { a with refreshFailures := a.refreshFailures + 1 }] } := by
  by_cases hge : a.refreshFailures ≥ 3 <;>
    simp [refreshAllTokens, refreshOneIntegration, refreshAccessToken, findActive,
      updateWhereId, deactivateAccount, List.find?, hact, hneeds, henv, hdb, hrt, hge]

/-- A concrete active account with a refresh token, zero recorded failures
and no stored expiry (so `needsRefresh` is true). -/
def failingAccount : Integration :=
  { id := 1, accessToken := "access", refreshToken := some "refresh",
    expiresAt := none, lastRefreshAt := none, refreshFailures := 0,
    isActive := true, isPrimary := true }

/-- **C3 counterexample.** Three consecutive failing refresh cycles leave the
account with `refresh_failures = 3` but with its active flag still set: the
scheduler's catch block tests the snapshot counter read before the failing
attempt, so the claimed deactivation after the third failure does not
happen. -/
theorem three_failures_do_not_deactivate :
    ((refreshAllTokens (refreshAllTokens (refreshAllTokens
          { isRunning := false, db := [failingAccount] } alwaysFailEnv 0)
        alwaysFailEnv 0) alwaysFailEnv 0).db.map
      (fun i => (i.refreshFailures, i.isActive))) = [(3, true)] := by decide

/-- **C3 amended.** Deactivation takes four consecutive failing refresh
cycles, not three: the counter reaches 3 after the third cycle with the
account still active, and the fourth failing cycle — whose snapshot counter
is already ≥ 3 — clears the active flag; a further `refreshAccessToken` call
for the deactivated account then fails with `IntegrationNotFound`, a
different error class from the pre-deactivation `RefreshFailed`. -/
theorem fourth_failure_deactivates (a : Integration) (env : RefreshEnv) (now : Int)
    (hact : a.isActive = true) (rt : String) (hrt : a.refreshToken = some rt)
    (hfail0 : a.refreshFailures = 0) (hneeds : needsRefresh a now = true)
    (henv : ∀ integrationId, (env.resp integrationId).ok = false)
    (hdb : env.dbAvailable = true) :
    (refreshAllTokens (refreshAllTokens (refreshAllTokens
        { isRunning := false, db := [a] } env now) env now) env now).db =
      [{ a with refreshFailures := 3 }] ∧
    (refreshAllTokens (refreshAllTokens (refreshAllTokens (refreshAllTokens
        { isRunning := false, db := [a] } env now) env now) env now) env now).db =
      [{ a with refreshFailures := 4, isActive := false }] ∧
    (refreshAccessToken [{ a with refreshFailures := 4, isActive := false }]
        a.id (env.resp a.id) now).result = .error .integrationNotFound := by
  have h1 := refreshAllTokens_singleton_failure a env now hact rt hrt hneeds (henv a.id) hdb
  rw [hfail0] at h1
  simp only [show ¬(0 ≥ 3) by omega, if_false] at h1
  have h2 := refreshAllTokens_singleton_failure { a with refreshFailures := 0 + 1 } env now
    hact rt hrt hneeds (henv a.id) hdb
  simp only [show ¬(0 + 1 ≥ 3) by omega, if_false] at h2
  have h3 := refreshAllTokens_singleton_failure { a with refreshFailures := 0 + 1 + 1 } env now
    hact rt hrt hneeds (henv a.id) hdb
  simp only [show ¬(0 + 1 + 1 ≥ 3) by omega, if_false] at h3
  have h4 := refreshAllTokens_singleton_failure { a with refreshFailures := 0 + 1 + 1 + 1 } env
    now hact rt hrt hneeds (henv a.id) hdb
  simp only [show (0 + 1 + 1 + 1 ≥ 3) by omega, if_true] at h4
  refine ⟨?_, ?_, ?_⟩
  · rw [h1, h2, h3]
  · rw [h1, h2, h3, h4]
  · simp [refreshAccessToken, findActive, List.find?]

/-- Witness for the amended C3 at the concrete account and environment. -/
theorem fourth_failure_deactivates_witness :
    (refreshAllTokens (refreshAllTokens (refreshAllTokens
        { isRunning := false, db := [failingAccount] } alwaysFailEnv 0)
        alwaysFailEnv 0) alwaysFailEnv 0).db =
      [{ failingAccount with refreshFailures := 3 }] ∧
    (refreshAllTokens (refreshAllTokens (refreshAllTokens (refreshAllTokens
        { isRunning := false, db := [failingAccount] } alwaysFailEnv 0)
        alwaysFailEnv 0) alwaysFailEnv 0) alwaysFailEnv 0).db =
      [{ failingAccount with refreshFailures := 4, isActive := false }] ∧
    (refreshAccessToken [{ failingAccount with refreshFailures := 4, isActive := false }]
        failingAccount.id (alwaysFailEnv.resp failingAccount.id) 0).result =
      .error .integrationNotFound :=
  fourth_failure_deactivates failingAccount alwaysFailEnv 0 rfl "refresh" rfl rfl rfl
    (fun _ => rfl) rfl

end SpotBackend

namespace SpotBackend.ComprehensiveSync

/-!
Embedding of `ComprehensiveJiraSync.syncAllData` and its twenty entity-type
steps, focused on their control flow: which REST endpoints are fetched, which
steps wrap their work in their own try/catch, and how a rejected request
propagates.  Row contents are modelled only as far as the orchestrator itself
reads them back (the project-key list and the issue-key list).
-/

/-- The external world of one comprehensive sync run: whether each REST
endpoint succeeds, the project list returned by `/project`, and the issue
keys returned by the per-project issue search. -/
structure SyncEnv where
  fetchOk : String → Bool
  projectList : List String
  issuesFor : String → List String

/-- Observable orchestrator state: the banner log (one entry per entity-type
step entered, mirroring the `console.log` at the top of each sync function),
the `project_key` column of `jira_projects`, and the `issue_key` column of
`jira_issues` for this integration. -/
structure OrchState where
  log : List String
  projects : List String
  issueKeys : List String
deriving Repr, DecidableEq

/-- A JavaScript `try { body } catch { ... }` that swallows the error:
the state as of the catch is the state at entry (fetch is the first
effect in every guarded body). -/
def tryCatch (body : Except String OrchState) (fallback : OrchState) : OrchState :=
  match body with
  | .ok st => st
  | .error _ => fallback

/-- `syncProjects`: fetches `/project` with **no** internal try/catch — a
rejected request propagates to the caller. -/
def syncProjects (env : SyncEnv) (st : OrchState) : Except String OrchState :=
  let st := { st with log := st.log ++ ["projects"] }
  if env.fetchOk "/project" then
    .ok { st with projects := st.projects ++ env.projectList }
  else
    .error "/project"

/-- `syncIssueTypes`: fetches `/issuetype`, no internal try/catch. -/
def syncIssueTypes (env : SyncEnv) (st : OrchState) : Except String OrchState :=
  let st := { st with log := st.log ++ ["issueTypes"] }
  if env.fetchOk "/issuetype" then .ok st else .error "/issuetype"

/-- `syncPriorities`: fetches `/priority`, no internal try/catch. -/
def syncPriorities (env : SyncEnv) (st : OrchState) : Except String OrchState :=
  let st := { st with log := st.log ++ ["priorities"] }
  if env.fetchOk "/priority" then .ok st else .error "/priority"

/-- `syncStatuses`: fetches `/status`, no internal try/catch. -/
def syncStatuses (env : SyncEnv) (st : OrchState) : Except String OrchState :=
  let st := { st with log := st.log ++ ["statuses"] }
  if env.fetchOk "/status" then .ok st else .error "/status"

/-- `syncResolutions`: fetches `/resolution`, no internal try/catch. -/
def syncResolutions (env : SyncEnv) (st : OrchState) : Except String OrchState :=
  let st := { st with log := st.log ++ ["resolutions"] }
  if env.fetchOk "/resolution" then .ok st else .error "/resolution"

/-- `syncUsers`: fetch and upserts wrapped in try/catch (admin-only
endpoint) — a rejected request is swallowed. -/
def syncUsers (env : SyncEnv) (st : OrchState) : Except String OrchState :=
  let st := { st with log := st.log ++ ["users"] }
  .ok (tryCatch
    (if env.fetchOk "/users/search?maxResults=1000" then .ok st
     else .error "/users/search?maxResults=1000") st)

/-- `syncGroups`: wrapped in try/catch. -/
def syncGroups (env : SyncEnv) (st : OrchState) : Except String OrchState :=
  let st := { st with log := st.log ++ ["groups"] }
  .ok (tryCatch
    (if env.fetchOk "/groups/picker?maxResults=1000" then .ok st
     else .error "/groups/picker?maxResults=1000") st)

/-- `syncIssueFields`: fetches `/field`, no internal try/catch. -/
def syncIssueFields (env : SyncEnv) (st : OrchState) : Except String OrchState :=
  let st := { st with log := st.log ++ ["fields"] }
  if env.fetchOk "/field" then .ok st else .error "/field"

/-- `syncLabels`: wrapped in try/catch. -/
def syncLabels (env : SyncEnv) (st : OrchState) : Except String OrchState :=
  let st := { st with log := st.log ++ ["labels"] }
  .ok (tryCatch
    (if env.fetchOk "/search?jql=updated >= -30d ORDER BY updated DESC&maxResults=100"
     then .ok st
     else .error "/search") st)

/-- `syncComponents`: reads the stored project keys, then fetches per
project with a per-project try/catch — never propagates a fetch error. -/
def syncComponents (env : SyncEnv) (st : OrchState) : Except String OrchState :=
  .ok (st.projects.foldl (fun s pk =>
    tryCatch
      (if env.fetchOk ("/project/" ++ pk ++ "/components") then .ok s else .error pk)
      s) { st with log := st.log ++ ["components"] })

/-- `syncVersions`: per-project try/catch. -/
def syncVersions (env : SyncEnv) (st : OrchState) : Except String OrchState :=
  .ok (st.projects.foldl (fun s pk =>
    tryCatch
      (if env.fetchOk ("/project/" ++ pk ++ "/versions") then .ok s else .error pk)
      s) { st with log := st.log ++ ["versions"] })

/-- `syncWorkflows`: wrapped in try/catch. -/
def syncWorkflows (env : SyncEnv) (st : OrchState) : Except String OrchState :=
  let st := { st with log := st.log ++ ["workflows"] }
  .ok (tryCatch
    (if env.fetchOk "/workflow" then .ok st else .error "/workflow") st)

/-- `syncDashboards`: wrapped in try/catch. -/
def syncDashboards (env : SyncEnv) (st : OrchState) : Except String OrchState :=
  let st := { st with log := st.log ++ ["dashboards"] }
  .ok (tryCatch
    (if env.fetchOk "/dashboard" then .ok st else .error "/dashboard") st)

/-- `syncFilters`: wrapped in try/catch. -/
def syncFilters (env : SyncEnv) (st : OrchState) : Except String OrchState :=
  let st := { st with log := st.log ++ ["filters"] }
  .ok (tryCatch
    (if env.fetchOk "/filter/search?maxResults=1000" then .ok st
     else .error "/filter/search?maxResults=1000") st)

/-- `syncPermissions`: wrapped in try/catch. -/
def syncPermissions (env : SyncEnv) (st : OrchState) : Except String OrchState :=
  let st := { st with log := st.log ++ ["permissions"] }
  .ok (tryCatch
    (if env.fetchOk "/permissions" then .ok st else .error "/permissions") st)

/-- The per-project issue-search endpoint built by `syncIssuesComprehensive`. -/
def issueSearchEndpoint (projectKey : String) : String :=
  "/search/jql?jql=project = \"" ++ projectKey ++
    "\" ORDER BY updated DESC&maxResults=1000&expand=changelog,comments,worklog,attachments,issuelinks"

/-- `syncIssuesComprehensive`: reads the stored project keys, fetches the
issue search per project inside a per-project try/catch, and stores the
returned issue keys. -/
def syncIssuesComprehensive (env : SyncEnv) (st : OrchState) : Except String OrchState :=
  .ok (st.projects.foldl (fun s pk =>
    tryCatch
      (if env.fetchOk (issueSearchEndpoint pk) then
        .ok { s with issueKeys := s.issueKeys ++ env.issuesFor pk }
       else .error pk)
      s) { st with log := st.log ++ ["issues"] })

/-- `syncIssueComments`: reads the stored issue keys, per-issue try/catch. -/
def syncIssueComments (env : SyncEnv) (st : OrchState) : Except String OrchState :=
  .ok (st.issueKeys.foldl (fun s k =>
    tryCatch
      (if env.fetchOk ("/issue/" ++ k ++ "/comment") then .ok s else .error k) s)
    { st with log := st.log ++ ["comments"] })

/-- `syncIssueWorklogs`: per-issue try/catch. -/
def syncIssueWorklogs (env : SyncEnv) (st : OrchState) : Except String OrchState :=
  .ok (st.issueKeys.foldl (fun s k =>
    tryCatch
      (if env.fetchOk ("/issue/" ++ k ++ "/worklog") then .ok s else .error k) s)
    { st with log := st.log ++ ["worklogs"] })

/-- `syncIssueAttachments`: per-issue try/catch. -/
def syncIssueAttachments (env : SyncEnv) (st : OrchState) : Except String OrchState :=
  .ok (st.issueKeys.foldl (fun s k =>
    tryCatch
      (if env.fetchOk ("/issue/" ++ k ++ "?fields=attachment") then .ok s else .error k)
      s) { st with log := st.log ++ ["attachments"] })

/-- `syncIssueLinks`: per-issue try/catch. -/
def syncIssueLinks (env : SyncEnv) (st : OrchState) : Except String OrchState :=
  .ok (st.issueKeys.foldl (fun s k =>
    tryCatch
      (if env.fetchOk ("/issue/" ++ k ++ "?fields=issuelinks") then .ok s else .error k)
      s) { st with log := st.log ++ ["links"] })

/-- `ComprehensiveJiraSync.syncAllData`: runs the twenty steps strictly in
source order; its surrounding try/catch logs and **re-throws**
(`throw error`), so the sequence's error propagation is unchanged. -/
def syncAllData (env : SyncEnv) (st : OrchState) : Except String OrchState :=
  (syncProjects env st).bind (fun st =>
  (syncIssueTypes env st).bind (fun st =>
  (syncPriorities env st).bind (fun st =>
  (syncStatuses env st).bind (fun st =>
  (syncResolutions env st).bind (fun st =>
  (syncUsers env st).bind (fun st =>
  (syncGroups env st).bind (fun st =>
  (syncIssueFields env st).bind (fun st =>
  (syncLabels env st).bind (fun st =>
  (syncComponents env st).bind (fun st =>
  (syncVersions env st).bind (fun st =>
  (syncWorkflows env st).bind (fun st =>
  (syncDashboards env st).bind (fun st =>
  (syncFilters env st).bind (fun st =>
  (syncPermissions env st).bind (fun st =>
  (syncIssuesComprehensive env st).bind (fun st =>
  (syncIssueComments env st).bind (fun st =>
  (syncIssueWorklogs env st).bind (fun st =>
  (syncIssueAttachments env st).bind (fun st =>
  syncIssueLinks env st)))))))))))))))))))

/-- The banners of the twenty steps in execution order. -/
def allStepBanners : List String :=
  ["projects", "issueTypes", "priorities", "statuses", "resolutions", "users",
   "groups", "fields", "labels", "components", "versions", "workflows",
   "dashboards", "filters", "permissions", "issues", "comments", "worklogs",
   "attachments", "links"]

/-- A fold whose body never changes the state is the identity. -/
theorem foldl_id {α : Type} (l : List α) (st : OrchState)
    (f : OrchState → α → OrchState) (hf : ∀ s x, f s x = s) :
    l.foldl f st = st := by
  induction l generalizing st with
  | nil => rfl
  | cons a tl ih => rw [List.foldl_cons, hf st a]; exact ih st

/-- A fold whose body preserves the banner log preserves the banner log. -/
theorem foldl_log_invariant {α : Type} (l : List α) (st : OrchState)
    (f : OrchState → α → OrchState) (hf : ∀ s x, (f s x).log = s.log) :
    (l.foldl f st).log = st.log := by
  induction l generalizing st with
  | nil => rfl
  | cons a tl ih => rw [List.foldl_cons, ih (f st a)]; exact hf st a

/-- `syncProjects` on a reachable endpoint stores the fetched projects. -/
theorem syncProjects_ok (env : SyncEnv) (st : OrchState)
    (h : env.fetchOk "/project" = true) :
    syncProjects env st =
      .ok { st with
            log := st.log ++ ["projects"]
            projects := st.projects ++ env.projectList } := by
  simp [syncProjects, h]

/-- `syncIssueTypes` succeeds when its endpoint does. -/
theorem syncIssueTypes_ok (env : SyncEnv) (st : OrchState)
    (h : env.fetchOk "/issuetype" = true) :
    syncIssueTypes env st = .ok { st with log := st.log ++ ["issueTypes"] } := by
  simp [syncIssueTypes, h]

/-- `syncPriorities` succeeds when its endpoint does. -/
theorem syncPriorities_ok (env : SyncEnv) (st : OrchState)
    (h : env.fetchOk "/priority" = true) :
    syncPriorities env st = .ok { st with log := st.log ++ ["priorities"] } := by
  simp [syncPriorities, h]

/-- `syncStatuses` succeeds when its endpoint does. -/
theorem syncStatuses_ok (env : SyncEnv) (st : OrchState)
    (h : env.fetchOk "/status" = true) :
    syncStatuses env st = .ok { st with log := st.log ++ ["statuses"] } := by
  simp [syncStatuses, h]

/-- `syncResolutions` succeeds when its endpoint does. -/
theorem syncResolutions_ok (env : SyncEnv) (st : OrchState)
    (h : env.fetchOk "/resolution" = true) :
    syncResolutions env st = .ok { st with log := st.log ++ ["resolutions"] } := by
  simp [syncResolutions, h]

/-- `syncIssueFields` succeeds when its endpoint does. -/
theorem syncIssueFields_ok (env : SyncEnv) (st : OrchState)
    (h : env.fetchOk "/field" = true) :
    syncIssueFields env st = .ok { st with log := st.log ++ ["fields"] } := by
  simp [syncIssueFields, h]

/-- `syncUsers` never throws: its try/catch swallows the fetch error. -/
theorem syncUsers_ok (env : SyncEnv) (st : OrchState) :
    syncUsers env st = .ok { st with log := st.log ++ ["users"] } := by
  unfold syncUsers tryCatch
  by_cases h : env.fetchOk "/users/search?maxResults=1000" = true <;> simp [h]

/-- `syncGroups` never throws. -/
theorem syncGroups_ok (env : SyncEnv) (st : OrchState) :
    syncGroups env st = .ok { st with log := st.log ++ ["groups"] } := by
  unfold syncGroups tryCatch
  by_cases h : env.fetchOk "/groups/picker?maxResults=1000" = true <;> simp [h]

/-- `syncLabels` never throws. -/
theorem syncLabels_ok (env : SyncEnv) (st : OrchState) :
    syncLabels env st = .ok { st with log := st.log ++ ["labels"] } := by
  unfold syncLabels tryCatch
  by_cases h :
    env.fetchOk "/search?jql=updated >= -30d ORDER BY updated DESC&maxResults=100" = true <;>
    simp [h]

/-- `syncWorkflows` never throws. -/
theorem syncWorkflows_ok (env : SyncEnv) (st : OrchState) :
    syncWorkflows env st = .ok { st with log := st.log ++ ["workflows"] } := by
  unfold syncWorkflows tryCatch
  by_cases h : env.fetchOk "/workflow" = true <;> simp [h]

/-- `syncDashboards` never throws. -/
theorem syncDashboards_ok (env : SyncEnv) (st : OrchState) :
    syncDashboards env st = .ok { st with log := st.log ++ ["dashboards"] } := by
  unfold syncDashboards tryCatch
  by_cases h : env.fetchOk "/dashboard" = true <;> simp [h]

/-- `syncFilters` never throws. -/
theorem syncFilters_ok (env : SyncEnv) (st : OrchState) :
    syncFilters env st = .ok { st with log := st.log ++ ["filters"] } := by
  unfold syncFilters tryCatch
  by_cases h : env.fetchOk "/filter/search?maxResults=1000" = true <;> simp [h]

/-- `syncPermissions` never throws. -/
theorem syncPermissions_ok (env : SyncEnv) (st : OrchState) :
    syncPermissions env st = .ok { st with log := st.log ++ ["permissions"] } := by
  unfold syncPermissions tryCatch
  by_cases h : env.fetchOk "/permissions" = true <;> simp [h]

/-- `syncComponents` never throws: each per-project failure is swallowed, and
in this model a component upsert changes no tracked field. -/
theorem syncComponents_ok (env : SyncEnv) (st : OrchState) :
    syncComponents env st = .ok { st with log := st.log ++ ["components"] } := by
  unfold syncComponents
  rw [foldl_id]
  intro s pk
  unfold tryCatch
  by_cases h : env.fetchOk ("/project/" ++ pk ++ "/components") = true <;> simp [h]

/-- `syncVersions` never throws. -/
theorem syncVersions_ok (env : SyncEnv) (st : OrchState) :
    syncVersions env st = .ok { st with log := st.log ++ ["versions"] } := by
  unfold syncVersions
  rw [foldl_id]
  intro s pk
  unfold tryCatch
  by_cases h : env.fetchOk ("/project/" ++ pk ++ "/versions") = true <;> simp [h]

/-- The state produced by `syncIssuesComprehensive`'s per-project fold. -/
def issuesFoldResult (env : SyncEnv) (st : OrchState) : OrchState :=
  st.projects.foldl (fun s pk =>
    tryCatch
      (if env.fetchOk (issueSearchEndpoint pk) then
        .ok { s with issueKeys := s.issueKeys ++ env.issuesFor pk }
       else .error pk)
      s) { st with log := st.log ++ ["issues"] }

/-- `syncIssuesComprehensive` never throws. -/
theorem syncIssuesComprehensive_eq (env : SyncEnv) (st : OrchState) :
    syncIssuesComprehensive env st = .ok (issuesFoldResult env st) := rfl

/-- The issue-sync fold only appends issue keys; the banner log it produces
is the entry log plus its own banner. -/
theorem issuesFoldResult_log (env : SyncEnv) (st : OrchState) :
    (issuesFoldResult env st).log = st.log ++ ["issues"] := by
  unfold issuesFoldResult
  rw [foldl_log_invariant]
  intro s pk
  unfold tryCatch
  by_cases h : env.fetchOk (issueSearchEndpoint pk) = true <;> simp [h]

/-- `syncIssueComments` never throws. -/
theorem syncIssueComments_ok (env : SyncEnv) (st : OrchState) :
    syncIssueComments env st = .ok { st with log := st.log ++ ["comments"] } := by
  unfold syncIssueComments
  rw [foldl_id]
  intro s k
  unfold tryCatch
  by_cases h : env.fetchOk ("/issue/" ++ k ++ "/comment") = true <;> simp [h]

/-- `syncIssueWorklogs` never throws. -/
theorem syncIssueWorklogs_ok (env : SyncEnv) (st : OrchState) :
    syncIssueWorklogs env st = .ok { st with log := st.log ++ ["worklogs"] } := by
  unfold syncIssueWorklogs
  rw [foldl_id]
  intro s k
  unfold tryCatch
  by_cases h : env.fetchOk ("/issue/" ++ k ++ "/worklog") = true <;> simp [h]

/-- `syncIssueAttachments` never throws. -/
theorem syncIssueAttachments_ok (env : SyncEnv) (st : OrchState) :
    syncIssueAttachments env st = .ok { st with log := st.log ++ ["attachments"] } := by
  unfold syncIssueAttachments
  rw [foldl_id]
  intro s k
  unfold tryCatch
  by_cases h : env.fetchOk ("/issue/" ++ k ++ "?fields=attachment") = true <;> simp [h]

/-- `syncIssueLinks` never throws. -/
theorem syncIssueLinks_ok (env : SyncEnv) (st : OrchState) :
    syncIssueLinks env st = .ok { st with log := st.log ++ ["links"] } := by
  unfold syncIssueLinks
  rw [foldl_id]
  intro s k
  unfold tryCatch
  by_cases h : env.fetchOk ("/issue/" ++ k ++ "?fields=issuelinks") = true <;> simp [h]

/-- An environment in which exactly the `/priority` fetch is rejected. -/
def prioritiesFailEnv : SyncEnv :=
  { fetchOk := fun endpoint => !(endpoint == "/priority")
    projectList := ["PROJ"]
    issuesFor := fun _ => ["PROJ-1"] }

/-- **C1 counterexample.** A rejected request inside `syncPriorities` — an
entity-type sync step with no internal try/catch — propagates out of
`syncAllData`: the run aborts (later steps never execute) and the whole call
fails even though credential acquisition succeeded. -/
theorem priorities_failure_aborts_sync :
    syncAllData prioritiesFailEnv { log := [], projects := [], issueKeys := [] } =
      .error "/priority" := rfl

/-- **C1 amended.** Isolation holds only for the steps that carry their own
try/catch (users, groups, labels, workflows, dashboards, filters,
permissions, and the per-project/per-issue loops of components, versions,
issues, comments, worklogs, attachments, links): whenever the six unguarded
fetches (`/project`, `/issuetype`, `/priority`, `/status`, `/resolution`,
`/field`) succeed, `syncAllData` completes with all twenty entity-type steps
executed regardless of any other endpoint failures; a failure in one of the
six unguarded steps propagates and aborts the run. -/
theorem syncAllData_guarded_isolation (env : SyncEnv) (st : OrchState)
    (hproj : env.fetchOk "/project" = true)
    (hity : env.fetchOk "/issuetype" = true)
    (hpri : env.fetchOk "/priority" = true)
    (hsta : env.fetchOk "/status" = true)
    (hres : env.fetchOk "/resolution" = true)
    (hfld : env.fetchOk "/field" = true) :
    ∃ stFinal, syncAllData env st = .ok stFinal ∧
      stFinal.log = st.log ++ allStepBanners := by
  unfold syncAllData
  rw [syncProjects_ok env st hproj]
  simp only [Except.bind]
  rw [syncIssueTypes_ok env _ hity]
  simp only [Except.bind]
  rw [syncPriorities_ok env _ hpri]
  simp only [Except.bind]
  rw [syncStatuses_ok env _ hsta]
  simp only [Except.bind]
  rw [syncResolutions_ok env _ hres]
  simp only [Except.bind]
  rw [syncUsers_ok]
  simp only [Except.bind]
  rw [syncGroups_ok]
  simp only [Except.bind]
  rw [syncIssueFields_ok env _ hfld]
  simp only [Except.bind]
  rw [syncLabels_ok]
  simp only [Except.bind]
  rw [syncComponents_ok]
  simp only [Except.bind]
  rw [syncVersions_ok]
  simp only [Except.bind]
  rw [syncWorkflows_ok]
  simp only [Except.bind]
  rw [syncDashboards_ok]
  simp only [Except.bind]
  rw [syncFilters_ok]
  simp only [Except.bind]
  rw [syncPermissions_ok]
  simp only [Except.bind]
  rw [syncIssuesComprehensive_eq]
  simp only [Except.bind]
  rw [syncIssueComments_ok]
  simp only [Except.bind]
  rw [syncIssueWorklogs_ok]
  simp only [Except.bind]
  rw [syncIssueAttachments_ok]
  simp only [Except.bind]
  rw [syncIssueLinks_ok]
  refine ⟨_, rfl, ?_⟩
  simp [issuesFoldResult_log, allStepBanners]

/-- An environment in which exactly the admin-only `groups` fetch fails. -/
def groupsFailEnv : SyncEnv :=
  { fetchOk := fun endpoint => !(endpoint == "/groups/picker?maxResults=1000")
    projectList := ["PROJ"]
    issuesFor := fun _ => ["PROJ-1"] }

/-- Witness for the amended C1: with only the guarded `groups` fetch failing,
the run completes and every step executes. -/
theorem syncAllData_guarded_isolation_witness :
    ∃ stFinal,
      syncAllData groupsFailEnv { log := [], projects := [], issueKeys := [] } =
        .ok stFinal ∧
      stFinal.log = ([] : List String) ++ allStepBanners :=
  syncAllData_guarded_isolation groupsFailEnv { log := [], projects := [], issueKeys := [] }
    (by decide) (by decide) (by decide) (by decide) (by decide) (by decide)

end SpotBackend.ComprehensiveSync

namespace SpotBackend.DataSync

/-!
Embedding of the `jira_issues` persistence path: the table shape created by
`initDatabase` (`database.js`), SQLite `INSERT OR REPLACE` semantics, and the
full value list built by `ComprehensiveJiraSync.syncIssuesComprehensive` for
each issue row.
-/

/-- A SQLite value as used by the issue insert: NULL, an integer, or text. -/
inductive SqlValue where
  | nullV
  | intV (n : Int)
  | textV (s : String)
deriving Repr, DecidableEq

/-- A SQLite table: the column indices of its UNIQUE constraint over the
inserted value list (if one is declared), and its rows in insertion order. -/
structure Table where
  uniqueKey : Option (List Nat)
  rows : List (List SqlValue)
deriving Repr, DecidableEq

/-- SQLite uniqueness conflict between a new row and an existing row: every
key column is non-NULL and equal (NULL never conflicts in SQLite). -/
def conflictsOn (key : List Nat) (newRow oldRow : List SqlValue) : Bool :=
  key.all (fun c =>
    newRow.getD c .nullV != SqlValue.nullV &&
      (newRow.getD c .nullV == oldRow.getD c .nullV))

/-- `INSERT OR REPLACE`: delete the existing rows that would violate the
table's UNIQUE constraint, then append the new row.  With no UNIQUE
constraint declared on the table it behaves as a plain `INSERT`. -/
def insertOrReplace (t : Table) (row : List SqlValue) : Table :=
  match t.uniqueKey with
  | none => { t with rows := t.rows ++ [row] }
  | some key =>
      { t with rows := (t.rows.filter (fun r => !(conflictsOn key row r))) ++ [row] }

/-- The `jira_issues` table as `initDatabase` in `database.js` creates it:
the CREATE TABLE statement declares **no** UNIQUE constraint — only the
autoincrement integer primary key. -/
def jiraIssuesTableInit : Table := { uniqueKey := none, rows := [] }

/-- The `jira_issues` table as `setup-database-clean.js` creates it, with
`UNIQUE(integration_id, issue_key)` — indices 0 and 2 of the inserted value
list. -/
def jiraIssuesTableClean : Table := { uniqueKey := some [0, 2], rows := [] }

/-- A user object as read from an issue (`accountId`, `displayName`,
`emailAddress`, each possibly absent). -/
structure JiraUserRef where
  accountId : Option String
  displayName : Option String
  emailAddress : Option String
deriving Repr, DecidableEq

/-- A named reference (status, priority, issue type, resolution): `name` and
`id`, each possibly absent. -/
structure JiraNamedRef where
  name : Option String
  id : Option String
deriving Repr, DecidableEq

/-- The issue fields read by `syncIssuesComprehensive`.  Fields the source
only ever passes through `JSON.stringify` (description, labels, components,
fixVersions, versions, subtasks, issuelinks, worklog, comment, attachment)
are modelled by their serialized text; `parentKey` models
`fields.parent?.key`. -/
structure JiraIssueFields where
  summary : Option String
  description : Option String
  assignee : Option JiraUserRef
  reporter : Option JiraUserRef
  customfield_10014 : Option String
  customfield_10016 : Option Int
  status : Option JiraNamedRef
  priority : Option JiraNamedRef
  issuetype : Option JiraNamedRef
  resolution : Option JiraNamedRef
  labels : Option String
  components : Option String
  fixVersions : Option String
  versions : Option String
  parentKey : Option String
  subtasks : Option String
  issuelinks : Option String
  worklog : Option String
  comment : Option String
  attachment : Option String
  created : Option String
  updated : Option String
deriving Repr, DecidableEq

/-- An issue as returned by the issue search; `raw` is the serialized form
stored into `raw_data`. -/
structure JiraIssue where
  key : String
  id : String
  fields : JiraIssueFields
  raw : String
deriving Repr, DecidableEq

/-- A nullable text parameter (`x || null`). -/
def optText : Option String → SqlValue
  | none => .nullV
  | some s => .textV s

/-- A nullable numeric parameter (`x || null`). -/
def optInt : Option Int → SqlValue
  | none => .nullV
  | some n => .intV n

/-- The 37 parameters of the `INSERT OR REPLACE INTO jira_issues` statement
in `syncIssuesComprehensive`, in column order: `(integration_id, project_id,
issue_key, issue_id, summary, description, assignee_*, reporter_*, epic_key,
epic_name, story_points, status_*, priority_*, issue_type_*, resolution_*,
labels, components, fix_versions, versions, parent_key, subtasks,
issuelinks, worklog, comments, attachments, created, updated, raw_data,
updated_at)`.  The source passes `project.project_key` for the `project_id`
column and a literal `null` for `epic_name`; objects defaulted with
`|| \x7b\x7d` or `|| []` become their serialized defaults. -/
def issueRowValues (integrationId : Nat) (projectKey : String) (issue : JiraIssue)
    (nowIso : String) : List SqlValue :=
  [ .intV integrationId,
    .textV projectKey,
    .textV issue.key,
    .textV issue.id,
    optText issue.fields.summary,
    .textV (issue.fields.description.getD "\x7b\x7d"),
    optText (issue.fields.assignee.bind (·.accountId)),
    optText (issue.fields.assignee.bind (·.displayName)),
    optText (issue.fields.assignee.bind (·.emailAddress)),
    optText (issue.fields.reporter.bind (·.accountId)),
    optText (issue.fields.reporter.bind (·.displayName)),
    optText (issue.fields.reporter.bind (·.emailAddress)),
    optText issue.fields.customfield_10014,
    .nullV,
    optInt issue.fields.customfield_10016,
    optText (issue.fields.status.bind (·.name)),
    optText (issue.fields.status.bind (·.id)),
    optText (issue.fields.priority.bind (·.name)),
    optText (issue.fields.priority.bind (·.id)),
    optText (issue.fields.issuetype.bind (·.name)),
    optText (issue.fields.issuetype.bind (·.id)),
    optText (issue.fields.resolution.bind (·.name)),
    optText (issue.fields.resolution.bind (·.id)),
    .textV (issue.fields.labels.getD "[]"),
    .textV (issue.fields.components.getD "[]"),
    .textV (issue.fields.fixVersions.getD "[]"),
    .textV (issue.fields.versions.getD "[]"),
    optText issue.fields.parentKey,
    .textV (issue.fields.subtasks.getD "[]"),
    .textV (issue.fields.issuelinks.getD "[]"),
    .textV (issue.fields.worklog.getD "\x7b\x7d"),
    .textV (issue.fields.comment.getD "\x7b\x7d"),
    .textV (issue.fields.attachment.getD "[]"),
    optText issue.fields.created,
    optText issue.fields.updated,
    .textV issue.raw,
    .textV nowIso ]

/-- The store slice this path touches: the `(integration_id, project_key)`
rows of `jira_projects` and the `jira_issues` table. -/
structure SyncStore where
  projects : List (Nat × String)
  jiraIssues : Table
deriving Repr, DecidableEq

/-- `SELECT project_key FROM jira_projects WHERE integration_id = ?`. -/
def selectProjectKeys (store : SyncStore) (integrationId : Nat) : List String :=
  (store.projects.filter (fun p => p.1 == integrationId)).map (·.2)

/-- `ComprehensiveJiraSync.syncIssuesComprehensive`, row-level view: for each
stored project key, fetch the issue search (`response pk`, `none` modelling
a rejected request caught by the per-project try/catch) and
`INSERT OR REPLACE` each returned issue. -/
def syncIssuesComprehensive (store : SyncStore) (integrationId : Nat)
    (response : String → Option (List JiraIssue)) (nowIso : String) : SyncStore :=
  (selectProjectKeys store integrationId).foldl (fun st pk =>
    match response pk with
    | none => st
    | some issues =>
        { st with jiraIssues := issues.foldl (fun t issue =>
            insertOrReplace t (issueRowValues integrationId pk issue nowIso)) st.jiraIssues })
    store

/-- A concrete issue used as the duplicate-ingestion input. -/
def sampleIssue : JiraIssue :=
  { key := "PROJ-1", id := "10001"
    fields :=
      { summary := some "First issue", description := none, assignee := none,
        reporter := none, customfield_10014 := none, customfield_10016 := none,
        status := some { name := some "To Do", id := some "1" }, priority := none,
        issuetype := some { name := some "Task", id := some "3" }, resolution := none,
        labels := none, components := none, fixVersions := none, versions := none,
        parentKey := none, subtasks := none, issuelinks := none, worklog := none,
        comment := none, attachment := none, created := none, updated := none }
    raw := "raw-json" }

/-- One project, empty issue table, schema as `initDatabase` creates it. -/
def sampleStore : SyncStore :=
  { projects := [(1, "PROJ")], jiraIssues := jiraIssuesTableInit }

/-- The same store but with the `jira_issues` UNIQUE constraint that
`setup-database-clean.js` declares. -/
def sampleStoreClean : SyncStore :=
  { projects := [(1, "PROJ")], jiraIssues := jiraIssuesTableClean }

/-- An upstream always returning the same single issue. -/
def sampleResponse : String → Option (List JiraIssue) := fun _ => some [sampleIssue]

/-- **C2.** Against the schema `initDatabase` actually creates — no UNIQUE
constraint on `jira_issues` — running the issue sync twice with identical
upstream data stores two rows sharing `(integration_id, issue_key)`:
`INSERT OR REPLACE` never replaces without a uniqueness constraint, so
re-ingestion duplicates instead of overwriting.  Had the table carried the
`UNIQUE(integration_id, issue_key)` constraint declared by
`setup-database-clean.js`, the same double run would keep exactly one row,
as the claim states. -/
theorem double_sync_duplicates_issue_rows :
    ((syncIssuesComprehensive (syncIssuesComprehensive sampleStore 1 sampleResponse "t0")
        1 sampleResponse "t0").jiraIssues.rows.map
      (fun r => (r.getD 0 .nullV, r.getD 2 .nullV))) =
      [(.intV 1, .textV "PROJ-1"), (.intV 1, .textV "PROJ-1")] ∧
    (syncIssuesComprehensive (syncIssuesComprehensive sampleStoreClean 1 sampleResponse "t0")
        1 sampleResponse "t0").jiraIssues.rows.length = 1 := by
  exact ⟨rfl, rfl⟩

end SpotBackend.DataSync

namespace SpotBackend.JiraApi

/-!
Embedding of `JiraApiService.getIssues` / `syncIssuesToDatabase`
(`jira-api.js`): the fetch request body and the pagination loop.
-/

/-- The JSON body that `getIssues` POSTs to `/rest/api/3/search/jql`.  The
source builds it from `jql`, `maxResults` and `fields` only — the function's
`startAt` parameter never enters the body. -/
structure IssuesRequestBody where
  jql : String
  maxResults : Nat
  fields : List String
deriving Repr, DecidableEq

set_option linter.unusedVariables false in
/-- The body built by `getIssues(cloudId, projectKey, startAt, maxResults)`.
`startAt` is accepted, faithfully to the source, and unused, faithfully to
the source (hence the disabled unused-variable lint). -/
def getIssuesRequestBody (projectKey : String) (startAt maxResults : Nat) :
    IssuesRequestBody :=
  { jql := "project = \"" ++ projectKey ++ "\" ORDER BY updated DESC"
    maxResults := maxResults
    fields := ["summary", "status", "assignee", "issuetype", "customfield_10014",
               "customfield_10016", "labels", "components", "parent", "subtasks"] }

/-- The while-loop of `syncIssuesToDatabase`, embedded with a fuel bound
(the source's `while (true)` has no other bound).  `pages n` is the issue
list the n-th fetch call returns.  Mirrors the source: fetch; break before
counting when the page is empty; otherwise count the page, advance the local
`startAt` by `maxResults` (= 100) and continue only while the page was full.
Returns the total issue count and the request bodies sent, in order. -/
def syncIssuesLoop (pages : Nat → List String) (projectKey : String) :
    Nat → Nat → Nat → Nat → List IssuesRequestBody → Nat × List IssuesRequestBody
  | 0, _, _, total, reqs => (total, reqs)
  | fuel + 1, startAt, callIdx, total, reqs =>
      let req := getIssuesRequestBody projectKey startAt 100
      let issues := pages callIdx
      if issues.length == 0 then (total, reqs ++ [req])
      else if issues.length < 100 then (total + issues.length, reqs ++ [req])
      else syncIssuesLoop pages projectKey fuel (startAt + 100) (callIdx + 1)
        (total + issues.length) (reqs ++ [req])

/-- `JiraApiService.syncIssuesToDatabase`, fetch-level view: runs the loop
from `startAt = 0` with `maxResults = 100`. -/
def syncIssuesToDatabase (pages : Nat → List String) (projectKey : String)
    (fuel : Nat) : Nat × List IssuesRequestBody :=
  syncIssuesLoop pages projectKey fuel 0 0 0 []

/-- The claim's synthetic source: exactly `maxResults` (100) items on the
first call, fewer (30) on the second. -/
def twoPages : Nat → List String
  | 0 => List.replicate 100 "issue"
  | 1 => List.replicate 30 "issue"
  | _ => []

/-- **C6.** The loop does terminate after exactly two fetch calls with the
total equal to the sum of both pages for the claim's synthetic source — but
the request body is independent of `startAt`: the offset is never placed in
the request, so the second fetch asks for exactly the same page as the
first instead of the next offset. -/
theorem getIssues_ignores_startAt :
    (∀ (projectKey : String) (startAt1 startAt2 maxResults : Nat),
      getIssuesRequestBody projectKey startAt1 maxResults =
        getIssuesRequestBody projectKey startAt2 maxResults) ∧
    syncIssuesToDatabase twoPages "PROJ" 10 =
      (130, [getIssuesRequestBody "PROJ" 0 100, getIssuesRequestBody "PROJ" 0 100]) := by
  refine ⟨fun projectKey startAt1 startAt2 maxResults => rfl, ?_⟩
  rfl

end SpotBackend.JiraApi
